import Mathlib

/-!
Verification development for the ASKql query-processing pipeline
(`askql-backend/src/workflow/askql-workflow.ts` and
`askql-backend/src/agents/sql-execution.agent.ts`).

The orchestrator and the SQL-execution agent are shallowly embedded as
executable Lean functions.  External collaborators (schema introspection,
the NL-to-SQL translator, the validator, the alternative generator, the
database driver, the result interpreter) are opaque async calls in the
source; they are modelled as oracle functions returning `Except String`
values, where `Except.error m` models a thrown/rejected promise with
message `m`.  The WebSocket progress sink is modelled as an oracle that
either never throws (`none`) or throws with a fixed message (`some m`);
since no `try` in the source ever distinguishes between distinct sink
calls, this uniform model suffices for every property below.  Wall-clock
time (`Date.now()`) is modelled as a constant clock, so elapsed times are
`0`.
-/

/-- JavaScript truthiness of an optional string field of the state:
`undefined` and the empty string are falsy. -/
def strTruthy : Option String → Bool
  | none => false
  | some s => !(s == "")

/-- JavaScript truthiness of an optional numeric field: `undefined` and
`0` are falsy. -/
def natTruthy : Option Nat → Bool
  | none => false
  | some n => !(n == 0)

/-- Risk classification produced by the SQL validation agent
(`'LOW' | 'MEDIUM' | 'HIGH'`). -/
inductive RiskLevel where
  | LOW
  | MEDIUM
  | HIGH
deriving DecidableEq, Repr

/-- Record `SQLValidationOutput` from `sql-validation.agent.ts`. -/
structure SQLValidationOutput where
  isValid : Bool
  issues : List String
  suggestions : List String
  improvedQuery : Option String
  riskLevel : RiskLevel
  shouldExecute : Bool
deriving DecidableEq, Repr

/-- One candidate produced by the alternative-query generator
(`{query, explanation, confidence}`). -/
structure AlternativeQuery where
  query : String
  explanation : String
  confidence : Nat
deriving DecidableEq, Repr

/-- Result of `experimentWithQuery`: the `alternatives` key may be
absent in the agent's answer (the workflow guards with `?.`). -/
structure QueryAlternatives where
  alternatives : Option (List AlternativeQuery)
deriving DecidableEq, Repr

/-- Record `NLToSQLOutput` from `nl-to-sql.agent.ts` (confidence is 0..100). -/
structure NLToSQLOutput where
  sqlQuery : String
  explanation : String
  confidence : Nat
deriving DecidableEq, Repr

/-- Record `NLToSQLInput` from `nl-to-sql.agent.ts`. -/
structure NLToSQLInput where
  naturalLanguageQuery : String
  schema : List String
deriving DecidableEq, Repr

/-- Record `SQLValidationInput` from `sql-validation.agent.ts`. -/
structure SQLValidationInput where
  sqlQuery : String
  originalQuestion : String
  schema : List String
  explanation : String
deriving DecidableEq, Repr

/-- A database row: an object, i.e. a list of key/value pairs.  Only the
JavaScript type tag of each value is observable to the pipeline (via
`extractColumnInfo`), so values are modelled by their type shape. -/
inductive JsVal where
  | jnull
  | jint (n : Int)
  | jfloat
  | jbool (b : Bool)
  | jdate
  | jstr (s : String)
  | jarr
  | jobj
deriving DecidableEq, Repr

/-- A row returned by the database driver. -/
abbrev Row : Type := List (String × JsVal)

/-- Column metadata entry (`{name, type}`). -/
structure ColumnInfo where
  name : String
  colType : String
deriving DecidableEq, Repr

/-- Field `metadata` of an execution result. -/
structure ExecutionMetadata where
  columnInfo : List ColumnInfo
deriving DecidableEq, Repr

/-- Record `SQLExecutionOutput` from `sql-execution.agent.ts`. -/
structure SQLExecutionOutput where
  success : Bool
  data : Option (List Row)
  error : Option String
  executionTime : Nat
  rowCount : Nat
  metadata : ExecutionMetadata
deriving DecidableEq, Repr

/-- Record `SQLExecutionInput` from `sql-execution.agent.ts`. -/
structure SQLExecutionInput where
  sqlQuery : String
  isValidated : Bool
  riskLevel : RiskLevel
deriving DecidableEq, Repr

/-- The interpreter's structured answer (`askql.schema.ts`).  The
orchestrator treats everything except `summary` opaquely (the summary is
forwarded to the progress sink); the chart/table payloads never influence
control flow and are not modelled. -/
structure AskQLStructuredOutput where
  summary : String
deriving DecidableEq, Repr

/-- Record `ResultInterpretationInput` from `result-interpretation.agent.ts`. -/
structure ResultInterpretationInput where
  originalQuestion : String
  sqlQuery : String
  queryResults : List Row
deriving DecidableEq, Repr

/-- The `AskQLState` record threaded through the LangGraph workflow.
`messages` carries opaque conversation messages; no stage reads or
writes it. -/
structure AskQLState where
  originalQuestion : String
  sessionId : Option String := none
  schema : Option (List String) := none
  sqlQuery : Option String := none
  queryExplanation : Option String := none
  sqlConfidence : Option Nat := none
  validationResult : Option SQLValidationOutput := none
  alternativeQueries : Option (List AlternativeQuery) := none
  executionResult : Option SQLExecutionOutput := none
  finalResponse : Option AskQLStructuredOutput := none
  error : Option String := none
  retryCount : Option Nat := none
  messages : List String := []
deriving DecidableEq, Repr

/-- The bundle of external collaborators consumed by the workflow, each
an opaque call with its own error channel (`Except.error` = the promise
rejected / the call threw).  `sink` models the progress-sink transport:
`none` means notify calls succeed, `some m` means they throw `m`. -/
structure Env where
  getSchemaInfo : Except String (List String)
  convertNLToSQL : NLToSQLInput → Except String NLToSQLOutput
  validateSQL : SQLValidationInput → Except String SQLValidationOutput
  experimentWithQuery : SQLValidationInput → Except String QueryAlternatives
  executeReadOnlyQuery : String → Except String (List Row)
  interpretResults : ResultInterpretationInput → Except String AskQLStructuredOutput
  sink : Option String

/-- One progress-sink notification (any of the `emit*` helpers of
`WorkflowStreamingService`): a no-op unless a session id is present and
truthy, in which case it throws exactly when the sink transport does. -/
def notifySink (env : Env) (sessionId : Option String) : Except String Unit :=
  if strTruthy sessionId then
    match env.sink with
    | none => Except.ok ()
    | some m => Except.error m
  else Except.ok ()

/-- JavaScript `String.prototype.toUpperCase` (ASCII, as used on SQL text). -/
def jsToUpper (s : String) : String := String.mk (s.toList.map Char.toUpper)

/-- JavaScript `String.prototype.trim`. -/
def jsTrim (s : String) : String :=
  String.mk (((s.toList.dropWhile Char.isWhitespace).reverse.dropWhile
    Char.isWhitespace).reverse)

/-- JavaScript `String.prototype.startsWith`. -/
def jsStartsWith (s p : String) : Bool := List.isPrefixOf p.toList s.toList

namespace SQLExecutionAgent

/-- Constant `MAX_ROWS` of `SQLExecutionAgent`. -/
def MAX_ROWS : Nat := 1000

/-- Does `needle` occur as a contiguous substring of `hay`?
(JavaScript `String.prototype.includes`.) -/
def charsContainSub : List Char → List Char → Bool
  | hay, needle =>
    match hay with
    | [] => needle.isEmpty
    | c :: t => List.isPrefixOf needle (c :: t) || charsContainSub t needle

/-- JavaScript `a.includes(b)` on strings. -/
def containsSub (hay needle : String) : Bool :=
  charsContainSub hay.toList needle.toList

/-- Strip the trailing run of semicolons (`.replace(/;+$/, '')`). -/
def stripTrailingSemis (s : String) : String :=
  String.mk ((s.toList.reverse.dropWhile (fun c => c = ';')).reverse)

/-- A regex word character (`\w`). -/
def isWordChar (c : Char) : Bool := c.isAlphanum || c = '_'

/-- Consume leading whitespace (`\s*`). -/
def dropWs : List Char → List Char
  | [] => []
  | c :: t => if c.isWhitespace then dropWs t else c :: t

/-- Match `\s*` followed by the literal character `c`; return the rest. -/
def wsThenChar (c : Char) : List Char → Option (List Char)
  | [] => none
  | x :: t => if x = c then some t else if x.isWhitespace then wsThenChar c t else none

/-- Match one of `(COUNT|SUM|AVG|MAX|MIN)\s*\(` or `GROUP\s+BY\s*\(` at
the head of the (already upper-cased) character list. -/
def aggKeywordAt (l : List Char) : Bool :=
  (["COUNT", "SUM", "AVG", "MAX", "MIN"].any fun kw =>
    List.isPrefixOf kw.toList l && (wsThenChar '(' (l.drop kw.length)).isSome) ||
  (List.isPrefixOf "GROUP".toList l &&
    match l.drop 5 with
    | [] => false
    | c :: t =>
      c.isWhitespace &&
        (let r := dropWs t
         List.isPrefixOf "BY".toList r && (wsThenChar '(' (r.drop 2)).isSome))

/-- Match `COUNT\s*\(\s*\*\s*\)` at the head of the list. -/
def countStarAt (l : List Char) : Bool :=
  List.isPrefixOf "COUNT".toList l &&
    match wsThenChar '(' (l.drop 5) with
    | none => false
    | some r1 =>
      match wsThenChar '*' r1 with
      | none => false
      | some r2 => (wsThenChar ')' r2).isSome

/-- Scan the list for a match of `p` at a `\b` word boundary.  `prev`
records whether the previous character was a word character (all the
keywords start with a word character, so the boundary holds exactly when
the previous character is not one). -/
def boundaryScan (p : List Char → Bool) : Bool → List Char → Bool
  | _, [] => false
  | prev, c :: t =>
    (!prev && p (c :: t)) || boundaryScan p (isWordChar c) t

/-- Predicate `isAggregateQuery`: the test
`/\b(COUNT|SUM|AVG|MAX|MIN|GROUP\s+BY)\s*\(/i.test(q) || /\bCOUNT\s*\(\s*\*\s*\)/i.test(q)`,
run case-insensitively (hence on the upper-cased text). -/
def isAggregateQuery (q : String) : Bool :=
  boundaryScan aggKeywordAt false (jsToUpper q).toList ||
    boundaryScan countStarAt false (jsToUpper q).toList

/-- Function `getJavaScriptType` of `sql-execution.agent.ts`, on the modelled
value shapes. -/
def getJavaScriptType : JsVal → String
  | .jnull => "null"
  | .jint _ => "integer"
  | .jfloat => "number"
  | .jbool _ => "boolean"
  | .jdate => "date"
  | .jstr s =>
    if (match s.toList with
        | a :: b :: c :: d :: e :: f :: g :: h :: i :: j :: _ =>
          (a.isDigit && b.isDigit && c.isDigit && d.isDigit && e = '-' &&
           f.isDigit && g.isDigit && h = '-' && i.isDigit && j.isDigit) ||
          (a.isDigit && b.isDigit && c = '/' && d.isDigit && e.isDigit &&
           f = '/' && g.isDigit && h.isDigit && i.isDigit && j.isDigit)
        | _ => false) then "datetime"
    else "string"
  | .jarr => "array"
  | .jobj => "object"

/-- Function `extractColumnInfo`: column names and JavaScript types of the first
row (rows are objects by construction, so the non-object guards of the
source cannot fire). -/
def extractColumnInfo (data : List Row) : List ColumnInfo :=
  match data with
  | [] => []
  | firstRow :: _ => firstRow.map fun kv => ⟨kv.1, getJavaScriptType kv.2⟩

/-- Method `SQLExecutionAgent.executeSQL`.  The database driver
(`executeReadOnlyQuery`, raced against the 30s timeout) is the oracle
`db`; a timeout is one of the oracle's possible `Except.error` outcomes.
The agent itself never throws: every path returns an output. -/
def executeSQL (db : String → Except String (List Row)) (input : SQLExecutionInput) :
    SQLExecutionOutput :=
  if !input.isValidated then
    { success := false, data := none,
      error := some "Query must be validated before execution",
      executionTime := 0, rowCount := 0, metadata := ⟨[]⟩ }
  else if input.riskLevel = RiskLevel.HIGH then
    { success := false, data := none,
      error := some "High-risk queries are not allowed to execute",
      executionTime := 0, rowCount := 0, metadata := ⟨[]⟩ }
  else if !(jsStartsWith (jsToUpper (jsTrim input.sqlQuery)) "SELECT") then
    { success := false, data := none,
      error := some "Only SELECT queries are allowed",
      executionTime := 0, rowCount := 0, metadata := ⟨[]⟩ }
  else
    let q0 := stripTrailingSemis (jsTrim input.sqlQuery)
    let queryToExecute :=
      if !(containsSub (jsToUpper q0) "LIMIT") && !(isAggregateQuery q0) then
        q0 ++ " LIMIT " ++ toString MAX_ROWS
      else q0
    match db queryToExecute with
    | .ok rows =>
      { success := true, data := some rows, error := none,
        executionTime := 0, rowCount := rows.length,
        metadata := ⟨extractColumnInfo rows⟩ }
    | .error m =>
      { success := false, data := none, error := some m,
        executionTime := 0, rowCount := 0, metadata := ⟨[]⟩ }

end SQLExecutionAgent

namespace AskQLWorkflow

/-- Node `load_schema`.  The `emitSchemaLoading` call sits before the
`try`; `emitSchemaLoaded` sits inside it, and the catch block calls
`emitError` before returning the error update. -/
def loadSchema (env : Env) (s : AskQLState) : Except String AskQLState := do
  notifySink env s.sessionId
  match (do
      let schema ← env.getSchemaInfo
      notifySink env s.sessionId
      pure schema : Except String (List String)) with
  | .ok schema => pure { s with schema := some schema }
  | .error m => do
    notifySink env s.sessionId
    pure { s with error := some ("Failed to load database schema: " ++ m) }

/-- Node `nl_to_sql`.  Note `emitNLToSQLStarting` precedes the schema
check; the schema check precedes the `try`. -/
def convertNLToSQL (env : Env) (s : AskQLState) : Except String AskQLState := do
  notifySink env s.sessionId
  match s.schema with
  | none => pure { s with error := some "Database schema not available" }
  | some schema =>
    match (do
        notifySink env s.sessionId
        let result ← env.convertNLToSQL ⟨s.originalQuestion, schema⟩
        notifySink env s.sessionId
        pure result : Except String NLToSQLOutput) with
    | .ok result =>
      pure { s with sqlQuery := some result.sqlQuery,
                    queryExplanation := some result.explanation,
                    sqlConfidence := some result.confidence }
    | .error m => do
      notifySink env s.sessionId
      pure { s with error := some ("NL to SQL conversion failed: " ++ m) }

/-- Node `validate_sql`.  Here `!state.sqlQuery || !state.schema` is the
JavaScript guard: an absent or empty query counts as missing. -/
def validateSQL (env : Env) (s : AskQLState) : Except String AskQLState := do
  notifySink env s.sessionId
  match s.sqlQuery, s.schema with
  | some sq, some schema =>
    if sq = "" then
      pure { s with error := some "SQL query or schema missing for validation" }
    else
      match (do
          let validationResult ←
            env.validateSQL ⟨sq, s.originalQuestion, schema, s.queryExplanation.getD ""⟩
          notifySink env s.sessionId
          pure validationResult : Except String SQLValidationOutput) with
      | .ok vr => pure { s with validationResult := some vr }
      | .error m => do
        notifySink env s.sessionId
        pure { s with error := some ("SQL validation failed: " ++ m) }
  | _, _ => pure { s with error := some "SQL query or schema missing for validation" }

/-- JavaScript `reduce` over the alternatives: keep the current candidate only when
its confidence strictly exceeds the best so far. -/
def reduceBest (best : AlternativeQuery) : List AlternativeQuery → AlternativeQuery
  | [] => best
  | c :: rest => reduceBest (if c.confidence > best.confidence then c else best) rest

/-- Node `experiment_alternatives`.  Missing preconditions and a
failing generator both return the empty update (the state unchanged);
the best alternative replaces the query triple only when its confidence
strictly exceeds `state.sqlConfidence || 0`. -/
def experimentWithAlternatives (env : Env) (s : AskQLState) : Except String AskQLState := do
  notifySink env s.sessionId
  match s.sqlQuery, s.schema with
  | some sq, some schema =>
    if sq = "" then pure s
    else
      match (do
          let alternatives ←
            env.experimentWithQuery ⟨sq, s.originalQuestion, schema, s.queryExplanation.getD ""⟩
          notifySink env s.sessionId
          pure alternatives : Except String QueryAlternatives) with
      | .ok alts =>
        match alts.alternatives with
        | some (a0 :: rest) =>
          let bestAlternative := reduceBest a0 rest
          if bestAlternative.confidence > s.sqlConfidence.getD 0 then
            pure { s with alternativeQueries := some (a0 :: rest),
                          sqlQuery := some bestAlternative.query,
                          queryExplanation := some bestAlternative.explanation,
                          sqlConfidence := some bestAlternative.confidence }
          else pure { s with alternativeQueries := some (a0 :: rest) }
        | some [] => pure { s with alternativeQueries := some [] }
        | none => pure { s with alternativeQueries := none }
      | .error _ => do
        notifySink env s.sessionId
        pure s
  | _, _ => pure s

/-- Node `execute_sql` of the workflow: builds the agent input from the
stored validation verdict and records the agent's output.  The agent
call cannot reject, so inside the `try` only the completion notify can
throw. -/
def executeSQL (env : Env) (s : AskQLState) : Except String AskQLState := do
  notifySink env s.sessionId
  match s.sqlQuery, s.validationResult with
  | some sq, some vr =>
    if sq = "" then
      pure { s with error := some "SQL query or validation result missing" }
    else
      match (do
          let executionResult :=
            SQLExecutionAgent.executeSQL env.executeReadOnlyQuery
              ⟨sq, vr.isValid, vr.riskLevel⟩
          notifySink env s.sessionId
          pure executionResult : Except String SQLExecutionOutput) with
      | .ok er => pure { s with executionResult := some er }
      | .error m => do
        notifySink env s.sessionId
        pure { s with error := some ("SQL execution failed: " ++ m) }
  | _, _ => pure { s with error := some "SQL query or validation result missing" }

/-- Node `interpret_results`.  The presence guard checks `executionResult`
and `sqlQuery` only — the `success` flag is not inspected here. -/
def interpretResults (env : Env) (s : AskQLState) : Except String AskQLState := do
  notifySink env s.sessionId
  match s.executionResult, s.sqlQuery with
  | some er, some sq =>
    if sq = "" then do
      notifySink env s.sessionId
      pure { s with error := some "Execution result or SQL query missing for interpretation" }
    else
      match (do
          let finalResponse ←
            env.interpretResults ⟨s.originalQuestion, sq, er.data.getD []⟩
          notifySink env s.sessionId
          pure finalResponse : Except String AskQLStructuredOutput) with
      | .ok fr => pure { s with finalResponse := some fr }
      | .error m => do
        notifySink env s.sessionId
        pure { s with error := some ("Result interpretation failed: " ++ m) }
  | _, _ => do
    notifySink env s.sessionId
    pure { s with error := some "Execution result or SQL query missing for interpretation" }

/-- Rendering of `state.error` in a template literal: `undefined` prints as the
string `undefined`. -/
def jsErrorText : Option String → String
  | none => "undefined"
  | some e => e

/-- Node `handle_error` (pure). -/
def handleError (s : AskQLState) : AskQLState :=
  let retryCount := s.retryCount.getD 0 + 1
  if retryCount > 2 then
    { s with error := some ("Maximum retry attempts exceeded. Original error: "
                              ++ jsErrorText s.error),
             retryCount := some retryCount }
  else
    { s with error := s.error, retryCount := some retryCount }

/-- Conditional edge after `nl_to_sql`. -/
def shouldValidateSQL (s : AskQLState) : String :=
  if strTruthy s.error then "error" else "validate"

/-- Check `state.sqlConfidence && state.sqlConfidence < 70`: truthy (present
and non-zero) and below the fixed threshold 70. -/
def lowConfidence (c : Option Nat) : Bool :=
  natTruthy c && decide (c.getD 0 < 70)

/-- Conditional edge after `validate_sql`. -/
def shouldExecuteOrExperiment (s : AskQLState) : String :=
  if strTruthy s.error || s.validationResult.isNone then "error"
  else
    match s.validationResult with
    | some vr =>
      if !vr.isValid || !vr.shouldExecute || lowConfidence s.sqlConfidence then
        "experiment"
      else "execute"
    | none => "error"

/-- Conditional edge after `execute_sql`. -/
def shouldInterpretOrError (s : AskQLState) : String :=
  if strTruthy s.error || s.executionResult.isNone then "error"
  else
    match s.executionResult with
    | some er => if !er.success then "error" else "interpret"
    | none => "error"

/-- The tail of the graph after `execute_sql` has produced its state. -/
def finishAfterExecute (env : Env) (s : AskQLState) : Except String AskQLState :=
  match shouldInterpretOrError s with
  | "error" => pure (handleError s)
  | _ => interpretResults env s

/-- Chain `execute_sql` followed by its conditional edge. -/
def execThenFinish (env : Env) (s : AskQLState) : Except String AskQLState := do
  let s' ← executeSQL env s
  finishAfterExecute env s'

/-- The branch chosen by `shouldExecuteOrExperiment`; the edge out of
`experiment_alternatives` into `execute_sql` is unconditional. -/
def afterValidateRoute (env : Env) (s : AskQLState) : Except String AskQLState :=
  match shouldExecuteOrExperiment s with
  | "error" => pure (handleError s)
  | "experiment" => do
    let s' ← experimentWithAlternatives env s
    execThenFinish env s'
  | _ => execThenFinish env s

/-- Chain `validate_sql` followed by its conditional edge. -/
def validateThenRoute (env : Env) (s : AskQLState) : Except String AskQLState := do
  let s' ← validateSQL env s
  afterValidateRoute env s'

/-- The compiled graph of `buildWorkflow`, invoked on an initial state:
`load_schema → nl_to_sql → {validate | error} → {execute | experiment |
error} → {interpret | error} → END`, where the error target is the
`handle_error` node and both `interpret_results` and `handle_error` lead
to END. -/
def invoke (env : Env) (s0 : AskQLState) : Except String AskQLState := do
  let s1 ← loadSchema env s0
  let s2 ← convertNLToSQL env s1
  match shouldValidateSQL s2 with
  | "error" => pure (handleError s2)
  | _ => validateThenRoute env s2

/-- The initial state built by `processQuery`. -/
def mkInitialState (question : String) : AskQLState :=
  { originalQuestion := question, retryCount := some 0, messages := [] }

/-- Entry point `processQuery(question, sessionId?)`.  The initial
`emitSchemaLoading` call precedes the `try`; the completion/error emits
are inside it; the catch block re-emits (which may itself throw) and
falls back to the initial state with a wrapping error message. -/
def processQuery (env : Env) (question : String) (sessionId : Option String) :
    Except String AskQLState :=
  let initialState := mkInitialState question
  match notifySink env sessionId with
  | .error m => .error m
  | .ok _ =>
    let stateWithSession := { initialState with sessionId := sessionId }
    match (do
        let result ← invoke env stateWithSession
        notifySink env sessionId
        pure result : Except String AskQLState) with
    | .ok result => .ok result
    | .error m =>
      match notifySink env sessionId with
      | .error m2 => .error m2
      | .ok _ => .ok { initialState with error := some ("Workflow execution failed: " ++ m) }

end AskQLWorkflow

/-- The invariants every terminal state of the graph satisfies (proved
by the master lemmas below): error is absent or non-empty; a truthy
error excludes a final response; when neither error nor final response
is present the execution result is a recorded business failure; the
retry counter is 0 or 1; the retry-exhaustion message is never produced;
a schema-load failure yields a truthy error with one retry; and a
validator that never approves (invalid or HIGH risk) excludes a final
response. -/
def TerminalBundle (env : Env) (t : AskQLState) : Prop :=
  (t.error = none ∨ strTruthy t.error = true) ∧
  (strTruthy t.error = true → t.finalResponse = none) ∧
  ((t.error = none ∧ t.finalResponse = none) →
    ∃ er, t.executionResult = some er ∧ er.success = false) ∧
  (t.retryCount = some 0 ∨ t.retryCount = some 1) ∧
  (∀ m, t.error ≠ some ("Maximum retry attempts exceeded. Original error: " ++ m)) ∧
  (∀ m, env.getSchemaInfo = Except.error m →
    strTruthy t.error = true ∧ t.retryCount = some 1) ∧
  ((∀ inp vr, env.validateSQL inp = Except.ok vr →
      vr.isValid = false ∨ vr.riskLevel = RiskLevel.HIGH) → t.finalResponse = none)

def demoEnv : Env :=
  { getSchemaInfo := Except.ok ["orders"]
    convertNLToSQL := fun _ => Except.ok ⟨"SELECT COUNT(*) FROM orders", "counts the orders", 92⟩
    validateSQL := fun _ => Except.ok ⟨true, [], [], none, RiskLevel.LOW, true⟩
    experimentWithQuery := fun _ => Except.ok ⟨some []⟩
    executeReadOnlyQuery := fun _ => Except.ok [[("count", JsVal.jint 5)]]
    interpretResults := fun _ => Except.ok ⟨"There are 5 orders."⟩
    sink := none }

def highRiskEnv : Env :=
  { demoEnv with validateSQL := fun _ => Except.ok ⟨true, [], [], none, RiskLevel.HIGH, true⟩ }

def invalidEnv : Env :=
  { demoEnv with
      validateSQL := fun _ => Except.ok ⟨false, ["bad join"], [], none, RiskLevel.LOW, true⟩ }

def demoAlternatives : List AlternativeQuery := [⟨"q40", "e40", 40⟩, ⟨"q85", "e85", 85⟩, ⟨"q60", "e60", 60⟩]

def altsEnv : Env := { demoEnv with experimentWithQuery := fun _ => Except.ok ⟨some demoAlternatives⟩ }

def experimentState : AskQLState :=
  { originalQuestion := "q"
    schema := some ["t"]
    sqlQuery := some "SELECT o"
    queryExplanation := some "orig"
    sqlConfidence := some 50
    retryCount := some 0 }

def sinkThrowEnv : Env := { demoEnv with sink := some "socket emit failed" }

def dbFailEnv : Env :=
  { demoEnv with executeReadOnlyQuery := fun _ => Except.error "connection refused" }

def genFailEnv : Env :=
  { demoEnv with experimentWithQuery := fun _ => Except.error "llm timeout" }

def demoValidation : SQLValidationOutput := ⟨true, [], [], none, RiskLevel.LOW, true⟩

def demoExec : SQLExecutionOutput :=
  ⟨true, some [[("count", JsVal.jint 5)]], none, 0, 1, ⟨[⟨"count", "integer"⟩]⟩⟩

def demoTerminal (q : String) (sid : Option String) : AskQLState :=
  { originalQuestion := q
    sessionId := sid
    schema := some ["orders"]
    sqlQuery := some "SELECT COUNT(*) FROM orders"
    queryExplanation := some "counts the orders"
    sqlConfidence := some 92
    validationResult := some demoValidation
    executionResult := some demoExec
    finalResponse := some ⟨"There are 5 orders."⟩
    error := none
    retryCount := some 0 }

def dbFailExec : SQLExecutionOutput := ⟨false, none, some "connection refused", 0, 0, ⟨[]⟩⟩

def dbFailTerminal : AskQLState :=
  { demoTerminal "q" none with
      executionResult := some dbFailExec
      finalResponse := none
      retryCount := some 1 }

def highRiskExec : SQLExecutionOutput :=
  ⟨false, none, some "High-risk queries are not allowed to execute", 0, 0, ⟨[]⟩⟩

def highRiskTerminal : AskQLState :=
  { demoTerminal "q8" none with
      validationResult := some ⟨true, [], [], none, RiskLevel.HIGH, true⟩
      executionResult := some highRiskExec
      finalResponse := none
      retryCount := some 1 }

def invalidTerminal : AskQLState :=
  { demoTerminal "q10" none with
      validationResult := some ⟨false, ["bad join"], [], none, RiskLevel.LOW, true⟩
      alternativeQueries := some []
      executionResult := some ⟨false, none, some "Query must be validated before execution", 0, 0, ⟨[]⟩⟩
      finalResponse := none
      retryCount := some 1 }

def failedExec : SQLExecutionOutput :=
  ⟨false, some [[("a", JsVal.jint 1)]], some "division by zero", 0, 1, ⟨[]⟩⟩

def sFailedExec : AskQLState :=
  { originalQuestion := "q"
    sqlQuery := some "SELECT 1"
    executionResult := some failedExec
    retryCount := some 0 }

def confState (c : Option Nat) : AskQLState :=
  { originalQuestion := "q"
    validationResult := some demoValidation
    sqlConfidence := c }

def routeAfterValidateSpec (s : AskQLState) : String :=
  if s.error.getD "" ≠ "" ∨ s.validationResult.isNone then "error"
  else
    match s.validationResult with
    | none => "error"
    | some v =>
      if v.isValid = false ∨ v.shouldExecute = false ∨
          (s.sqlConfidence.getD 0 ≠ 0 ∧ s.sqlConfidence.getD 0 < 70) then "experiment"
      else "execute"

def crashSinkEnv : Env := { demoEnv with sink := some "websocket transport failure" }

open AskQLWorkflow

theorem notifySink_ok_of_none (env : Env) (h : env.sink = none) (sid : Option String) :
    notifySink env sid = Except.ok () := by
  unfold notifySink
  rw [h]
  cases hs : strTruthy sid <;> simp

theorem data_append (p m : String) : (p ++ m).data = p.data ++ m.data := rfl

theorem loadSchema_ok (env : Env) (s : AskQLState) (sch : List String)
    (hq : notifySink env s.sessionId = Except.ok ())
    (h : env.getSchemaInfo = Except.ok sch) :
    AskQLWorkflow.loadSchema env s = Except.ok { s with schema := some sch } := by
  simp [AskQLWorkflow.loadSchema, hq, h, Bind.bind, Except.bind, Pure.pure, Except.pure]

theorem loadSchema_err (env : Env) (s : AskQLState) (m : String)
    (hq : notifySink env s.sessionId = Except.ok ())
    (h : env.getSchemaInfo = Except.error m) :
    AskQLWorkflow.loadSchema env s =
      Except.ok { s with error := some ("Failed to load database schema: " ++ m) } := by
  simp [AskQLWorkflow.loadSchema, hq, h, Bind.bind, Except.bind, Pure.pure, Except.pure]

theorem convertNL_noSchema (env : Env) (s : AskQLState)
    (hq : notifySink env s.sessionId = Except.ok ())
    (h : s.schema = none) :
    AskQLWorkflow.convertNLToSQL env s =
      Except.ok { s with error := some "Database schema not available" } := by
  simp [AskQLWorkflow.convertNLToSQL, hq, h, Bind.bind, Except.bind, Pure.pure, Except.pure]

theorem convertNL_ok (env : Env) (s : AskQLState) (schema : List String) (r : NLToSQLOutput)
    (hq : notifySink env s.sessionId = Except.ok ())
    (h : s.schema = some schema)
    (hr : env.convertNLToSQL ⟨s.originalQuestion, schema⟩ = Except.ok r) :
    AskQLWorkflow.convertNLToSQL env s =
      Except.ok { s with sqlQuery := some r.sqlQuery,
                         queryExplanation := some r.explanation,
                         sqlConfidence := some r.confidence } := by
  simp [AskQLWorkflow.convertNLToSQL, hq, h, hr, Bind.bind, Except.bind, Pure.pure, Except.pure]

theorem convertNL_err (env : Env) (s : AskQLState) (schema : List String) (m : String)
    (hq : notifySink env s.sessionId = Except.ok ())
    (h : s.schema = some schema)
    (hr : env.convertNLToSQL ⟨s.originalQuestion, schema⟩ = Except.error m) :
    AskQLWorkflow.convertNLToSQL env s =
      Except.ok { s with error := some ("NL to SQL conversion failed: " ++ m) } := by
  simp [AskQLWorkflow.convertNLToSQL, hq, h, hr, Bind.bind, Except.bind, Pure.pure, Except.pure]

theorem validateSQL_empty (env : Env) (s : AskQLState) (schema : List String)
    (hq : notifySink env s.sessionId = Except.ok ())
    (hsq : s.sqlQuery = some "") (hsch : s.schema = some schema) :
    AskQLWorkflow.validateSQL env s =
      Except.ok { s with error := some "SQL query or schema missing for validation" } := by
  simp [AskQLWorkflow.validateSQL, hq, hsq, hsch, Bind.bind, Except.bind, Pure.pure, Except.pure]

theorem validateSQL_ok (env : Env) (s : AskQLState) (sq : String) (schema : List String)
    (vr : SQLValidationOutput)
    (hq : notifySink env s.sessionId = Except.ok ())
    (hsq : s.sqlQuery = some sq) (hne : sq ≠ "") (hsch : s.schema = some schema)
    (hr : env.validateSQL ⟨sq, s.originalQuestion, schema, s.queryExplanation.getD ""⟩ =
      Except.ok vr) :
    AskQLWorkflow.validateSQL env s = Except.ok { s with validationResult := some vr } := by
  simp [AskQLWorkflow.validateSQL, hq, hsq, hne, hsch, hr,
    Bind.bind, Except.bind, Pure.pure, Except.pure]

theorem validateSQL_err (env : Env) (s : AskQLState) (sq : String) (schema : List String)
    (m : String)
    (hq : notifySink env s.sessionId = Except.ok ())
    (hsq : s.sqlQuery = some sq) (hne : sq ≠ "") (hsch : s.schema = some schema)
    (hr : env.validateSQL ⟨sq, s.originalQuestion, schema, s.queryExplanation.getD ""⟩ =
      Except.error m) :
    AskQLWorkflow.validateSQL env s =
      Except.ok { s with error := some ("SQL validation failed: " ++ m) } := by
  simp [AskQLWorkflow.validateSQL, hq, hsq, hne, hsch, hr,
    Bind.bind, Except.bind, Pure.pure, Except.pure]

theorem executeSQL_run (env : Env) (s : AskQLState) (sq : String) (vr : SQLValidationOutput)
    (hq : notifySink env s.sessionId = Except.ok ())
    (hsq : s.sqlQuery = some sq) (hne : sq ≠ "") (hvr : s.validationResult = some vr) :
    AskQLWorkflow.executeSQL env s =
      Except.ok { s with executionResult := some (SQLExecutionAgent.executeSQL env.executeReadOnlyQuery ⟨sq, vr.isValid, vr.riskLevel⟩) } := by
  simp [AskQLWorkflow.executeSQL, hq, hsq, hne, hvr,
    Bind.bind, Except.bind, Pure.pure, Except.pure]

theorem executeSQL_emptyq (env : Env) (s : AskQLState) (vr : SQLValidationOutput)
    (hq : notifySink env s.sessionId = Except.ok ())
    (hsq : s.sqlQuery = some "") (hvr : s.validationResult = some vr) :
    AskQLWorkflow.executeSQL env s =
      Except.ok { s with error := some "SQL query or validation result missing" } := by
  simp [AskQLWorkflow.executeSQL, hq, hsq, hvr,
    Bind.bind, Except.bind, Pure.pure, Except.pure]

theorem interpret_ok (env : Env) (s : AskQLState) (er : SQLExecutionOutput) (sq : String)
    (fr : AskQLStructuredOutput)
    (hq : notifySink env s.sessionId = Except.ok ())
    (her : s.executionResult = some er) (hsq : s.sqlQuery = some sq) (hne : sq ≠ "")
    (hr : env.interpretResults ⟨s.originalQuestion, sq, er.data.getD []⟩ = Except.ok fr) :
    AskQLWorkflow.interpretResults env s =
      Except.ok { s with finalResponse := some fr } := by
  simp [AskQLWorkflow.interpretResults, hq, her, hsq, hne, hr,
    Bind.bind, Except.bind, Pure.pure, Except.pure]

theorem interpret_err (env : Env) (s : AskQLState) (er : SQLExecutionOutput) (sq : String)
    (m : String)
    (hq : notifySink env s.sessionId = Except.ok ())
    (her : s.executionResult = some er) (hsq : s.sqlQuery = some sq) (hne : sq ≠ "")
    (hr : env.interpretResults ⟨s.originalQuestion, sq, er.data.getD []⟩ = Except.error m) :
    AskQLWorkflow.interpretResults env s =
      Except.ok { s with error := some ("Result interpretation failed: " ++ m) } := by
  simp [AskQLWorkflow.interpretResults, hq, her, hsq, hne, hr,
    Bind.bind, Except.bind, Pure.pure, Except.pure]

theorem handleError_retry0 (s : AskQLState) (h : s.retryCount = some 0) :
    AskQLWorkflow.handleError s = { s with retryCount := some 1 } := by
  simp [AskQLWorkflow.handleError, h]

theorem experiment_skip (env : Env) (s : AskQLState)
    (hq : notifySink env s.sessionId = Except.ok ())
    (h : s.sqlQuery = none ∨ s.sqlQuery = some "" ∨ s.schema = none) :
    AskQLWorkflow.experimentWithAlternatives env s = Except.ok s := by
  rcases h with h | h | h
  · cases hsch : s.schema <;>
      simp [AskQLWorkflow.experimentWithAlternatives, hq, h, hsch,
        Bind.bind, Except.bind, Pure.pure, Except.pure]
  · cases hsch : s.schema <;>
      simp [AskQLWorkflow.experimentWithAlternatives, hq, h, hsch,
        Bind.bind, Except.bind, Pure.pure, Except.pure]
  · cases hsq : s.sqlQuery <;>
      simp [AskQLWorkflow.experimentWithAlternatives, hq, h, hsq,
        Bind.bind, Except.bind, Pure.pure, Except.pure]

theorem experiment_genfail (env : Env) (s : AskQLState) (sq : String) (schema : List String)
    (m : String)
    (hq : notifySink env s.sessionId = Except.ok ())
    (hsq : s.sqlQuery = some sq) (hne : sq ≠ "") (hsch : s.schema = some schema)
    (hr : env.experimentWithQuery ⟨sq, s.originalQuestion, schema, s.queryExplanation.getD ""⟩ =
      Except.error m) :
    AskQLWorkflow.experimentWithAlternatives env s = Except.ok s := by
  simp [AskQLWorkflow.experimentWithAlternatives, hq, hsq, hne, hsch, hr,
    Bind.bind, Except.bind, Pure.pure, Except.pure]

theorem experiment_better (env : Env) (s : AskQLState) (sq : String) (schema : List String)
    (a0 : AlternativeQuery) (rest : List AlternativeQuery)
    (hq : notifySink env s.sessionId = Except.ok ())
    (hsq : s.sqlQuery = some sq) (hne : sq ≠ "") (hsch : s.schema = some schema)
    (hr : env.experimentWithQuery ⟨sq, s.originalQuestion, schema, s.queryExplanation.getD ""⟩ =
      Except.ok ⟨some (a0 :: rest)⟩)
    (hgt : (AskQLWorkflow.reduceBest a0 rest).confidence > s.sqlConfidence.getD 0) :
    AskQLWorkflow.experimentWithAlternatives env s =
      Except.ok { s with alternativeQueries := some (a0 :: rest),
                         sqlQuery := some (AskQLWorkflow.reduceBest a0 rest).query,
                         queryExplanation := some (AskQLWorkflow.reduceBest a0 rest).explanation,
                         sqlConfidence := some (AskQLWorkflow.reduceBest a0 rest).confidence } := by
  simp [AskQLWorkflow.experimentWithAlternatives, hq, hsq, hne, hsch, hr, hgt,
    Bind.bind, Except.bind, Pure.pure, Except.pure]

theorem experiment_notBetter (env : Env) (s : AskQLState) (sq : String) (schema : List String)
    (a0 : AlternativeQuery) (rest : List AlternativeQuery)
    (hq : notifySink env s.sessionId = Except.ok ())
    (hsq : s.sqlQuery = some sq) (hne : sq ≠ "") (hsch : s.schema = some schema)
    (hr : env.experimentWithQuery ⟨sq, s.originalQuestion, schema, s.queryExplanation.getD ""⟩ =
      Except.ok ⟨some (a0 :: rest)⟩)
    (hle : ¬ (AskQLWorkflow.reduceBest a0 rest).confidence > s.sqlConfidence.getD 0) :
    AskQLWorkflow.experimentWithAlternatives env s =
      Except.ok { s with alternativeQueries := some (a0 :: rest) } := by
  simp [AskQLWorkflow.experimentWithAlternatives, hq, hsq, hne, hsch, hr, hle,
    Bind.bind, Except.bind, Pure.pure, Except.pure]

theorem experiment_emptyAlts (env : Env) (s : AskQLState) (sq : String) (schema : List String)
    (hq : notifySink env s.sessionId = Except.ok ())
    (hsq : s.sqlQuery = some sq) (hne : sq ≠ "") (hsch : s.schema = some schema)
    (hr : env.experimentWithQuery ⟨sq, s.originalQuestion, schema, s.queryExplanation.getD ""⟩ =
      Except.ok ⟨some []⟩) :
    AskQLWorkflow.experimentWithAlternatives env s =
      Except.ok { s with alternativeQueries := some [] } := by
  simp [AskQLWorkflow.experimentWithAlternatives, hq, hsq, hne, hsch, hr,
    Bind.bind, Except.bind, Pure.pure, Except.pure]

theorem experiment_noAlts (env : Env) (s : AskQLState) (sq : String) (schema : List String)
    (hq : notifySink env s.sessionId = Except.ok ())
    (hsq : s.sqlQuery = some sq) (hne : sq ≠ "") (hsch : s.schema = some schema)
    (hr : env.experimentWithQuery ⟨sq, s.originalQuestion, schema, s.queryExplanation.getD ""⟩ =
      Except.ok ⟨none⟩) :
    AskQLWorkflow.experimentWithAlternatives env s =
      Except.ok { s with alternativeQueries := none } := by
  simp [AskQLWorkflow.experimentWithAlternatives, hq, hsq, hne, hsch, hr,
    Bind.bind, Except.bind, Pure.pure, Except.pure]

theorem experiment_shape (env : Env) (s : AskQLState) (sq : String)
    (hq : notifySink env s.sessionId = Except.ok ())
    (hsq : s.sqlQuery = some sq) :
    ∃ s' q', AskQLWorkflow.experimentWithAlternatives env s = Except.ok s' ∧
      s'.sessionId = s.sessionId ∧ s'.originalQuestion = s.originalQuestion ∧
      s'.error = s.error ∧ s'.validationResult = s.validationResult ∧
      s'.executionResult = s.executionResult ∧ s'.finalResponse = s.finalResponse ∧
      s'.retryCount = s.retryCount ∧ s'.sqlQuery = some q' := by
  cases hsch : s.schema with
  | none =>
    exact ⟨s, sq, experiment_skip env s hq (Or.inr (Or.inr hsch)), rfl, rfl, rfl, rfl, rfl, rfl,
      rfl, hsq⟩
  | some schema =>
    by_cases hne : sq = ""
    · exact ⟨s, sq, experiment_skip env s hq (Or.inr (Or.inl (hne ▸ hsq))), rfl, rfl, rfl, rfl,
        rfl, rfl, rfl, hsq⟩
    · cases hr : env.experimentWithQuery
        ⟨sq, s.originalQuestion, schema, s.queryExplanation.getD ""⟩ with
      | error m =>
        exact ⟨s, sq, experiment_genfail env s sq schema m hq hsq hne hsch hr, rfl, rfl, rfl,
          rfl, rfl, rfl, rfl, hsq⟩
      | ok alts =>
        obtain ⟨altsOpt⟩ := alts
        match altsOpt with
        | none =>
          exact ⟨_, sq, experiment_noAlts env s sq schema hq hsq hne hsch hr, rfl, rfl, rfl,
            rfl, rfl, rfl, rfl, hsq⟩
        | some [] =>
          exact ⟨_, sq, experiment_emptyAlts env s sq schema hq hsq hne hsch hr, rfl, rfl, rfl,
            rfl, rfl, rfl, rfl, hsq⟩
        | some (a0 :: rest) =>
          by_cases hgt : (AskQLWorkflow.reduceBest a0 rest).confidence > s.sqlConfidence.getD 0
          · exact ⟨_, _, experiment_better env s sq schema a0 rest hq hsq hne hsch hr hgt,
              rfl, rfl, rfl, rfl, rfl, rfl, rfl, rfl⟩
          · exact ⟨_, sq, experiment_notBetter env s sq schema a0 rest hq hsq hne hsch hr hgt,
              rfl, rfl, rfl, rfl, rfl, rfl, rfl, hsq⟩

theorem isPrefixOf_append_self (l t : List Char) : List.isPrefixOf l (l ++ t) = true := by
  induction l with
  | nil => simp [List.isPrefixOf]
  | cons c cs ih => simp [List.isPrefixOf, ih]

theorem append_ne_empty_left (p m : String) (hp : p.data ≠ []) : p ++ m ≠ "" := by
  intro h
  apply hp
  have hd := congrArg String.data h
  rw [data_append] at hd
  exact (List.append_eq_nil.mp hd).1

theorem strTruthy_append (p m : String) (hp : p.data ≠ []) :
    strTruthy (some (p ++ m)) = true := by
  simp [strTruthy]
  exact append_ne_empty_left p m hp

theorem ne_append_of_not_pre (s p : String)
    (h : List.isPrefixOf p.data s.data = false) (m : String) : s ≠ p ++ m := by
  intro he
  have hd : s.data = p.data ++ m.data := by
    have := congrArg String.data he
    rwa [data_append] at this
  rw [hd, isPrefixOf_append_self] at h
  simp at h

theorem append_ne_append_of_head (p1 p2 m1 m2 : String)
    (h1 : p1.data ≠ []) (h2 : p2.data ≠ [])
    (hne : p1.data.head? ≠ p2.data.head?) : p1 ++ m1 ≠ p2 ++ m2 := by
  intro he
  have hd : p1.data ++ m1.data = p2.data ++ m2.data := by
    have := congrArg String.data he
    rw [data_append, data_append] at this
    exact this
  apply hne
  cases hp1 : p1.data with
  | nil => exact absurd hp1 h1
  | cons a l =>
    cases hp2 : p2.data with
    | nil => exact absurd hp2 h2
    | cons b l' =>
      rw [hp1, hp2] at hd
      simp only [List.cons_append, List.cons.injEq] at hd
      simp [hd.1]

theorem executeSQL_refused_success (db : String → Except String (List Row))
    (inp : SQLExecutionInput)
    (h : inp.isValidated = false ∨ inp.riskLevel = RiskLevel.HIGH) :
    (SQLExecutionAgent.executeSQL db inp).success = false := by
  rcases h with h | h
  · simp [SQLExecutionAgent.executeSQL, h]
  · cases hv : inp.isValidated <;> simp [SQLExecutionAgent.executeSQL, h, hv]

theorem shouldValidate_err (s : AskQLState) (h : strTruthy s.error = true) :
    AskQLWorkflow.shouldValidateSQL s = "error" := by
  simp [AskQLWorkflow.shouldValidateSQL, h]

theorem shouldValidate_go (s : AskQLState) (h : s.error = none) :
    AskQLWorkflow.shouldValidateSQL s = "validate" := by
  simp [AskQLWorkflow.shouldValidateSQL, h, strTruthy]

theorem shouldExec_err (s : AskQLState) (h : strTruthy s.error = true) :
    AskQLWorkflow.shouldExecuteOrExperiment s = "error" := by
  simp [AskQLWorkflow.shouldExecuteOrExperiment, h]

theorem shouldExec_experiment (s : AskQLState) (vr : SQLValidationOutput)
    (he : s.error = none) (hvr : s.validationResult = some vr)
    (hc : (!vr.isValid || !vr.shouldExecute || AskQLWorkflow.lowConfidence s.sqlConfidence) = true) :
    AskQLWorkflow.shouldExecuteOrExperiment s = "experiment" := by
  simp [AskQLWorkflow.shouldExecuteOrExperiment, he, hvr, hc, strTruthy]

theorem shouldExec_execute (s : AskQLState) (vr : SQLValidationOutput)
    (he : s.error = none) (hvr : s.validationResult = some vr)
    (hc : (!vr.isValid || !vr.shouldExecute || AskQLWorkflow.lowConfidence s.sqlConfidence) = false) :
    AskQLWorkflow.shouldExecuteOrExperiment s = "execute" := by
  simp [AskQLWorkflow.shouldExecuteOrExperiment, he, hvr, hc, strTruthy]

theorem shouldInterp_err_unsuccessful (s : AskQLState) (er : SQLExecutionOutput)
    (he : s.error = none) (her : s.executionResult = some er) (hs : er.success = false) :
    AskQLWorkflow.shouldInterpretOrError s = "error" := by
  simp [AskQLWorkflow.shouldInterpretOrError, he, her, hs, strTruthy]

theorem shouldInterp_go (s : AskQLState) (er : SQLExecutionOutput)
    (he : s.error = none) (her : s.executionResult = some er) (hs : er.success = true) :
    AskQLWorkflow.shouldInterpretOrError s = "interpret" := by
  simp [AskQLWorkflow.shouldInterpretOrError, he, her, hs, strTruthy]

theorem props_of_error_terminal (env : Env) (t : AskQLState) (e : String)
    (herr : t.error = some e) (hfr : t.finalResponse = none)
    (hretry : t.retryCount = some 0 ∨ t.retryCount = some 1)
    (htr : strTruthy (some e) = true)
    (hnm : ∀ m, e ≠ "Maximum retry attempts exceeded. Original error: " ++ m)
    (hp5 : ∀ m, env.getSchemaInfo = Except.error m → t.retryCount = some 1) :
    TerminalBundle env t := by
  unfold TerminalBundle
  refine ⟨Or.inr (herr ▸ htr), fun _ => hfr, ?_, hretry, ?_, fun m hm => ⟨herr ▸ htr, hp5 m hm⟩,
    fun _ => hfr⟩
  · intro h
    rw [herr] at h
    exact absurd h.1 (by simp)
  · intro m
    rw [herr]
    intro hcontra
    exact hnm m (Option.some.inj hcontra)

theorem props_of_noerror_terminal (env : Env) (t : AskQLState) (er : SQLExecutionOutput)
    (herr : t.error = none) (hfr : t.finalResponse = none)
    (hretry : t.retryCount = some 0 ∨ t.retryCount = some 1)
    (hexec : t.executionResult = some er) (hsucc : er.success = false)
    (hgs : ∀ m, env.getSchemaInfo ≠ Except.error m) :
    TerminalBundle env t := by
  unfold TerminalBundle
  refine ⟨Or.inl herr, ?_, fun _ => ⟨er, hexec, hsucc⟩, hretry, ?_, ?_, fun _ => hfr⟩
  · intro h
    rw [herr] at h
    simp [strTruthy] at h
  · intro m
    rw [herr]
    simp
  · intro m hm
    exact absurd hm (hgs m)

theorem props_of_final_terminal (env : Env) (t : AskQLState)
    (herr : t.error = none) (hfrS : t.finalResponse.isSome = true)
    (hretryL : t.retryCount = some 0)
    (hgs : ∀ m, env.getSchemaInfo ≠ Except.error m)
    (hp6 : (∀ inp vr, env.validateSQL inp = Except.ok vr →
        vr.isValid = false ∨ vr.riskLevel = RiskLevel.HIGH) → False) :
    TerminalBundle env t := by
  unfold TerminalBundle
  refine ⟨Or.inl herr, ?_, ?_, Or.inl hretryL, ?_, ?_, fun hval => absurd (hp6 hval) not_false⟩
  · intro h
    rw [herr] at h
    simp [strTruthy] at h
  · intro h
    rw [h.2] at hfrS
    simp at hfrS
  · intro m
    rw [herr]
    simp
  · intro m hm
    exact absurd hm (hgs m)

theorem execThenFinish_master (env : Env) (s : AskQLState) (sq : String)
    (vr : SQLValidationOutput)
    (hq : notifySink env s.sessionId = Except.ok ())
    (herr : s.error = none) (hfr : s.finalResponse = none) (hretry : s.retryCount = some 0)
    (hsq : s.sqlQuery = some sq) (hvr : s.validationResult = some vr)
    (hgs : ∀ m, env.getSchemaInfo ≠ Except.error m)
    (hvrsrc : ∃ inp, env.validateSQL inp = Except.ok vr) :
    ∃ t, AskQLWorkflow.execThenFinish env s = Except.ok t ∧ TerminalBundle env t := by
  by_cases hemp : sq = ""
  · subst hemp
    have h5 := executeSQL_emptyq env s vr hq hsq hvr
    set S5 : AskQLState := { s with error := some "SQL query or validation result missing" }
      with hS5
    have hroute : AskQLWorkflow.shouldInterpretOrError S5 = "error" := by
      simp [AskQLWorkflow.shouldInterpretOrError, hS5, strTruthy]
    have hre : S5.retryCount = some 0 := by simp [hS5, hretry]
    have heq := handleError_retry0 S5 hre
    have hrun : AskQLWorkflow.execThenFinish env s =
        Except.ok (AskQLWorkflow.handleError S5) := by
      simp [AskQLWorkflow.execThenFinish, h5, AskQLWorkflow.finishAfterExecute, hroute,
        Bind.bind, Except.bind, Pure.pure, Except.pure]
    refine ⟨_, hrun, props_of_error_terminal env _ "SQL query or validation result missing"
      ?_ ?_ ?_ (by decide) ?_ ?_⟩
    · rw [heq]
      try simp [hS5]
    · rw [heq]
      try simp [hS5, hfr]
    · right
      rw [heq]
    · intro m'
      exact ne_append_of_not_pre _ _ (by decide) m'
    · intro m hm
      exact absurd hm (hgs m)
  · have h5 := executeSQL_run env s sq vr hq hsq hemp hvr
    set er : SQLExecutionOutput :=
      SQLExecutionAgent.executeSQL env.executeReadOnlyQuery ⟨sq, vr.isValid, vr.riskLevel⟩
      with her
    set S5 : AskQLState := { s with executionResult := some er } with hS5
    have herr5 : S5.error = none := by simp [hS5, herr]
    have hex5 : S5.executionResult = some er := by simp [hS5]
    have hsq5 : S5.sqlQuery = some sq := by simp [hS5, hsq]
    have hre : S5.retryCount = some 0 := by simp [hS5, hretry]
    have hq5 : notifySink env S5.sessionId = Except.ok () := hq
    cases hsucc : er.success with
    | false =>
      have hroute := shouldInterp_err_unsuccessful S5 er herr5 hex5 hsucc
      have heq := handleError_retry0 S5 hre
      have hrun : AskQLWorkflow.execThenFinish env s =
          Except.ok (AskQLWorkflow.handleError S5) := by
        simp [AskQLWorkflow.execThenFinish, h5, AskQLWorkflow.finishAfterExecute, hroute,
          Bind.bind, Except.bind, Pure.pure, Except.pure]
      refine ⟨_, hrun, props_of_noerror_terminal env _ er ?_ ?_ ?_ ?_ hsucc hgs⟩
      · rw [heq]
        try simp [hS5, herr]
      · rw [heq]
        try simp [hS5, hfr]
      · right
        rw [heq]
      · rw [heq]
        try simp [hS5]
    | true =>
      have hroute := shouldInterp_go S5 er herr5 hex5 hsucc
      cases hint : env.interpretResults ⟨s.originalQuestion, sq, er.data.getD []⟩ with
      | ok fr =>
        have h6 := interpret_ok env S5 er sq fr hq5 hex5 hsq5 hemp hint
        have hrun : AskQLWorkflow.execThenFinish env s =
            Except.ok { S5 with finalResponse := some fr } := by
          simp [AskQLWorkflow.execThenFinish, h5, AskQLWorkflow.finishAfterExecute, hroute, h6,
            Bind.bind, Except.bind, Pure.pure, Except.pure]
        refine ⟨_, hrun, props_of_final_terminal env _ ?_ ?_ ?_ hgs ?_⟩
        · simp [hS5, herr]
        · simp
        · simp [hS5, hretry]
        · intro hval
          obtain ⟨inp, hv⟩ := hvrsrc
          have hf : er.success = false := by
            rw [her]
            rcases hval inp vr hv with hbad | hbad
            · exact executeSQL_refused_success env.executeReadOnlyQuery
                ⟨sq, vr.isValid, vr.riskLevel⟩ (Or.inl hbad)
            · exact executeSQL_refused_success env.executeReadOnlyQuery
                ⟨sq, vr.isValid, vr.riskLevel⟩ (Or.inr hbad)
          rw [hsucc] at hf
          exact Bool.noConfusion hf
      | error m =>
        have h6 := interpret_err env S5 er sq m hq5 hex5 hsq5 hemp hint
        have hrun : AskQLWorkflow.execThenFinish env s =
            Except.ok { S5 with error := some ("Result interpretation failed: " ++ m) } := by
          simp [AskQLWorkflow.execThenFinish, h5, AskQLWorkflow.finishAfterExecute, hroute, h6,
            Bind.bind, Except.bind, Pure.pure, Except.pure]
        refine ⟨_, hrun, props_of_error_terminal env _ ("Result interpretation failed: " ++ m)
          ?_ ?_ ?_ (strTruthy_append _ m (by decide)) ?_ ?_⟩
        · simp [hS5]
        · simp [hS5, hfr]
        · left
          simp [hS5, hretry]
        · intro m'
          exact append_ne_append_of_head _ _ _ _ (by decide) (by decide) (by decide)
        · intro m0 hm
          exact absurd hm (hgs m0)

theorem validateThenRoute_master (env : Env) (s : AskQLState) (sq : String) (sch : List String)
    (hq : notifySink env s.sessionId = Except.ok ())
    (herr : s.error = none) (hfr : s.finalResponse = none) (hretry : s.retryCount = some 0)
    (hsq : s.sqlQuery = some sq) (hsch : s.schema = some sch)
    (hgs : ∀ m, env.getSchemaInfo ≠ Except.error m) :
    ∃ t, AskQLWorkflow.validateThenRoute env s = Except.ok t ∧ TerminalBundle env t := by
  by_cases hemp : sq = ""
  · subst hemp
    have h3 := validateSQL_empty env s sch hq hsq hsch
    set S3 : AskQLState := { s with error := some "SQL query or schema missing for validation" }
      with hS3
    have hroute : AskQLWorkflow.shouldExecuteOrExperiment S3 = "error" := by
      apply shouldExec_err
      simp [hS3, strTruthy]
    have hre : S3.retryCount = some 0 := by simp [hS3, hretry]
    have heq := handleError_retry0 S3 hre
    have hrun : AskQLWorkflow.validateThenRoute env s =
        Except.ok (AskQLWorkflow.handleError S3) := by
      simp [AskQLWorkflow.validateThenRoute, h3, AskQLWorkflow.afterValidateRoute, hroute,
        Bind.bind, Except.bind, Pure.pure, Except.pure]
    refine ⟨_, hrun, props_of_error_terminal env _ "SQL query or schema missing for validation"
      ?_ ?_ ?_ (by decide) ?_ ?_⟩
    · rw [heq]
      try simp [hS3]
    · rw [heq]
      try simp [hS3, hfr]
    · right
      rw [heq]
    · intro m'
      exact ne_append_of_not_pre _ _ (by decide) m'
    · intro m hm
      exact absurd hm (hgs m)
  · cases hv : env.validateSQL ⟨sq, s.originalQuestion, sch, s.queryExplanation.getD ""⟩ with
    | error m =>
      have h3 := validateSQL_err env s sq sch m hq hsq hemp hsch hv
      set S3 : AskQLState := { s with error := some ("SQL validation failed: " ++ m) } with hS3
      have herrS3 : S3.error = some ("SQL validation failed: " ++ m) := by simp [hS3]
      have hroute : AskQLWorkflow.shouldExecuteOrExperiment S3 = "error" := by
        apply shouldExec_err
        rw [herrS3]
        exact strTruthy_append _ m (by decide)
      have hre : S3.retryCount = some 0 := by simp [hS3, hretry]
      have heq := handleError_retry0 S3 hre
      have hrun : AskQLWorkflow.validateThenRoute env s =
          Except.ok (AskQLWorkflow.handleError S3) := by
        simp [AskQLWorkflow.validateThenRoute, h3, AskQLWorkflow.afterValidateRoute, hroute,
          Bind.bind, Except.bind, Pure.pure, Except.pure]
      refine ⟨_, hrun, props_of_error_terminal env _ ("SQL validation failed: " ++ m)
        ?_ ?_ ?_ (strTruthy_append _ m (by decide)) ?_ ?_⟩
      · rw [heq]
        try simp [hS3]
      · rw [heq]
        try simp [hS3, hfr]
      · right
        rw [heq]
      · intro m'
        exact append_ne_append_of_head _ _ _ _ (by decide) (by decide) (by decide)
      · intro m0 hm
        exact absurd hm (hgs m0)
    | ok vr =>
      have h3 := validateSQL_ok env s sq sch vr hq hsq hemp hsch hv
      set S3 : AskQLState := { s with validationResult := some vr } with hS3
      have herr3 : S3.error = none := by simp [hS3, herr]
      have hvr3 : S3.validationResult = some vr := by simp [hS3]
      have hq3 : notifySink env S3.sessionId = Except.ok () := hq
      have hfr3 : S3.finalResponse = none := by simp [hS3, hfr]
      have hre3 : S3.retryCount = some 0 := by simp [hS3, hretry]
      have hsq3 : S3.sqlQuery = some sq := by simp [hS3, hsq]
      by_cases hcond :
          (!vr.isValid || !vr.shouldExecute || AskQLWorkflow.lowConfidence S3.sqlConfidence) = true
      · have hroute := shouldExec_experiment S3 vr herr3 hvr3 hcond
        obtain ⟨s4, q4, hexp, hf1, hf2, hf3, hf4, hf5, hf6, hf7, hf8⟩ :=
          experiment_shape env S3 sq hq3 hsq3
        obtain ⟨t, hrunT, hprops⟩ := execThenFinish_master env s4 q4 vr
          (by rw [hf1]; try exact hq3) (by rw [hf3]; try exact herr3)
          (by rw [hf6]; try exact hfr3) (by rw [hf7]; try exact hre3) hf8
          (by rw [hf4]; try exact hvr3) hgs ⟨_, hv⟩
        refine ⟨t, ?_, hprops⟩
        simp [AskQLWorkflow.validateThenRoute, h3, AskQLWorkflow.afterValidateRoute, hroute,
          hexp, hrunT, Bind.bind, Except.bind, Pure.pure, Except.pure]
      · have hcondF :
            (!vr.isValid || !vr.shouldExecute || AskQLWorkflow.lowConfidence S3.sqlConfidence)
              = false := by
          simpa using hcond
        have hroute := shouldExec_execute S3 vr herr3 hvr3 hcondF
        obtain ⟨t, hrunT, hprops⟩ :=
          execThenFinish_master env S3 sq vr hq3 herr3 hfr3 hre3 hsq3 hvr3 hgs ⟨_, hv⟩
        refine ⟨t, ?_, hprops⟩
        simp [AskQLWorkflow.validateThenRoute, h3, AskQLWorkflow.afterValidateRoute, hroute,
          hrunT, Bind.bind, Except.bind, Pure.pure, Except.pure]

theorem invoke_master (env : Env) (sid : Option String) (s0 : AskQLState)
    (hq : notifySink env sid = Except.ok ())
    (hses : s0.sessionId = sid) (hsch0 : s0.schema = none) (herr0 : s0.error = none)
    (hfr0 : s0.finalResponse = none) (hre0 : s0.retryCount = some 0) :
    ∃ t, AskQLWorkflow.invoke env s0 = Except.ok t ∧ TerminalBundle env t := by
  have hq0 : notifySink env s0.sessionId = Except.ok () := by
    rw [hses]
    exact hq
  cases hgs : env.getSchemaInfo with
  | error m =>
    have h1 := loadSchema_err env s0 m hq0 hgs
    set S1 : AskQLState := { s0 with error := some ("Failed to load database schema: " ++ m) }
      with hS1
    have hq1 : notifySink env S1.sessionId = Except.ok () := hq0
    have h2 := convertNL_noSchema env S1 hq1 (by simp [hS1, hsch0])
    set S2 : AskQLState := { S1 with error := some "Database schema not available" } with hS2
    have hroute : AskQLWorkflow.shouldValidateSQL S2 = "error" := by
      apply shouldValidate_err
      simp [hS2, strTruthy]
    have hre2 : S2.retryCount = some 0 := by simp [hS2, hS1, hre0]
    have heq := handleError_retry0 S2 hre2
    have hrun : AskQLWorkflow.invoke env s0 = Except.ok (AskQLWorkflow.handleError S2) := by
      simp [AskQLWorkflow.invoke, h1, h2, hroute, Bind.bind, Except.bind, Pure.pure, Except.pure]
    refine ⟨_, hrun, props_of_error_terminal env _ "Database schema not available"
      ?_ ?_ ?_ (by decide) ?_ ?_⟩
    · rw [heq]
      try simp [hS2]
    · rw [heq]
      try simp [hS2, hS1, hfr0]
    · right
      rw [heq]
    · intro m'
      exact ne_append_of_not_pre _ _ (by decide) m'
    · intro m0 hm0
      rw [heq]
  | ok sch =>
    have hgsne : ∀ m, env.getSchemaInfo ≠ Except.error m := by
      intro m hm
      rw [hgs] at hm
      exact Except.noConfusion hm
    have h1 := loadSchema_ok env s0 sch hq0 hgs
    set S1 : AskQLState := { s0 with schema := some sch } with hS1
    have hq1 : notifySink env S1.sessionId = Except.ok () := hq0
    have hsch1 : S1.schema = some sch := by simp [hS1]
    cases hnl : env.convertNLToSQL ⟨S1.originalQuestion, sch⟩ with
    | error m =>
      have h2 := convertNL_err env S1 sch m hq1 hsch1 hnl
      set S2 : AskQLState := { S1 with error := some ("NL to SQL conversion failed: " ++ m) }
        with hS2
      have herrS2 : S2.error = some ("NL to SQL conversion failed: " ++ m) := by simp [hS2]
      have hroute : AskQLWorkflow.shouldValidateSQL S2 = "error" := by
        apply shouldValidate_err
        rw [herrS2]
        exact strTruthy_append _ m (by decide)
      have hre2 : S2.retryCount = some 0 := by simp [hS2, hS1, hre0]
      have heq := handleError_retry0 S2 hre2
      have hrun : AskQLWorkflow.invoke env s0 = Except.ok (AskQLWorkflow.handleError S2) := by
        simp [AskQLWorkflow.invoke, h1, h2, hroute, Bind.bind, Except.bind, Pure.pure,
          Except.pure]
      refine ⟨_, hrun, props_of_error_terminal env _ ("NL to SQL conversion failed: " ++ m)
        ?_ ?_ ?_ (strTruthy_append _ m (by decide)) ?_ ?_⟩
      · rw [heq]
        try simp [hS2]
      · rw [heq]
        try simp [hS2, hS1, hfr0]
      · right
        rw [heq]
      · intro m'
        exact append_ne_append_of_head _ _ _ _ (by decide) (by decide) (by decide)
      · intro m0 hm0
        exact absurd hm0 (hgsne m0)
    | ok r =>
      have h2 := convertNL_ok env S1 sch r hq1 hsch1 hnl
      set S2 : AskQLState :=
        { S1 with
            sqlQuery := some r.sqlQuery,
            queryExplanation := some r.explanation,
            sqlConfidence := some r.confidence } with hS2
      have hroute : AskQLWorkflow.shouldValidateSQL S2 = "validate" := by
        apply shouldValidate_go
        simp [hS2, hS1, herr0]
      obtain ⟨t, hrunT, hprops⟩ := validateThenRoute_master env S2 r.sqlQuery sch hq0
        (by simp [hS2, hS1, herr0]) (by simp [hS2, hS1, hfr0]) (by simp [hS2, hS1, hre0])
        (by simp [hS2]) (by simp [hS2, hS1]) hgsne
      refine ⟨t, ?_, hprops⟩
      simp [AskQLWorkflow.invoke, h1, h2, hroute, hrunT, Bind.bind, Except.bind, Pure.pure,
        Except.pure]

theorem processQuery_master (env : Env) (q : String) (sid : Option String)
    (hq : notifySink env sid = Except.ok ()) :
    ∃ t, AskQLWorkflow.processQuery env q sid = Except.ok t ∧ TerminalBundle env t := by
  obtain ⟨t, hrun, hprops⟩ := invoke_master env sid
    { AskQLWorkflow.mkInitialState q with sessionId := sid } hq rfl rfl rfl rfl rfl
  refine ⟨t, ?_, hprops⟩
  simp [AskQLWorkflow.processQuery, hq, hrun, Bind.bind, Except.bind, Pure.pure, Except.pure]

theorem processQuery_ok_bundle (env : Env) (q : String) (sid : Option String) (s : AskQLState)
    (h : AskQLWorkflow.processQuery env q sid = Except.ok s) : TerminalBundle env s := by
  cases hn : notifySink env sid with
  | error m =>
    simp [AskQLWorkflow.processQuery, hn] at h
  | ok u =>
    cases u
    obtain ⟨t, hrun, hprops⟩ := processQuery_master env q sid hn
    rw [hrun] at h
    injection h with h'
    rw [← h']
    exact hprops

theorem processQuery_sinkThrow (env : Env) (q : String) (t : String) (m : String)
    (ht : t ≠ "") (hm : env.sink = some m) :
    AskQLWorkflow.processQuery env q (some t) = Except.error m := by
  have hn : notifySink env (some t) = Except.error m := by
    simp [notifySink, strTruthy, ht, hm]
  simp [AskQLWorkflow.processQuery, hn]

theorem routeAfterValidate_refines :
    ∀ s : AskQLState, AskQLWorkflow.shouldExecuteOrExperiment s = routeAfterValidateSpec s := by
  intro s
  unfold AskQLWorkflow.shouldExecuteOrExperiment routeAfterValidateSpec
  cases herr : s.error with
  | none =>
    cases hvr : s.validationResult with
    | none => simp [strTruthy]
    | some vr =>
      cases hc : s.sqlConfidence with
      | none =>
        simp [strTruthy, AskQLWorkflow.lowConfidence, natTruthy]
      | some c =>
        simp [strTruthy, AskQLWorkflow.lowConfidence, natTruthy]
        by_cases hval : vr.isValid <;> by_cases hse : vr.shouldExecute <;>
          by_cases hz : c = 0 <;> by_cases hlt : c < 70 <;>
            simp [hval, hse, hz, hlt]
  | some e =>
    cases he : (e == "") with
    | true =>
      have : e = "" := by simpa using he
      subst this
      cases hvr : s.validationResult with
      | none => simp [strTruthy]
      | some vr =>
        cases hc : s.sqlConfidence with
        | none =>
          simp [strTruthy, AskQLWorkflow.lowConfidence, natTruthy]
        | some c =>
          simp [strTruthy, AskQLWorkflow.lowConfidence, natTruthy]
          by_cases hval : vr.isValid <;> by_cases hse : vr.shouldExecute <;>
            by_cases hz : c = 0 <;> by_cases hlt : c < 70 <;>
              simp [hval, hse, hz, hlt]
    | false =>
      have hne : ¬ e = "" := by simpa using he
      simp [strTruthy, he, hne]

theorem reduceBest_spec (l : List AlternativeQuery) : ∀ b : AlternativeQuery,
    (AskQLWorkflow.reduceBest b l = b ∨ AskQLWorkflow.reduceBest b l ∈ l) ∧
    b.confidence ≤ (AskQLWorkflow.reduceBest b l).confidence ∧
    ∀ a ∈ l, a.confidence ≤ (AskQLWorkflow.reduceBest b l).confidence := by
  induction l with
  | nil => intro b; simp [AskQLWorkflow.reduceBest]
  | cons c rest ih =>
    intro b
    rw [AskQLWorkflow.reduceBest]
    by_cases hgt : c.confidence > b.confidence
    · simp only [hgt, if_pos]
      obtain ⟨hmem, hge, hall⟩ := ih c
      refine ⟨?_, ?_, ?_⟩
      · rcases hmem with h | h
        · exact Or.inr (by simp [h])
        · exact Or.inr (by simp [h])
      · exact le_trans (le_of_lt hgt) hge
      · intro a ha
        rcases List.mem_cons.mp ha with rfl | ha'
        · exact hge
        · exact hall a ha'
    · simp only [hgt, if_neg]
      obtain ⟨hmem, hge, hall⟩ := ih b
      refine ⟨?_, hge, ?_⟩
      · rcases hmem with h | h
        · exact Or.inl h
        · exact Or.inr (by simp [h])
      · intro a ha
        rcases List.mem_cons.mp ha with rfl | ha'
        · exact le_trans (le_of_not_lt hgt) hge
        · exact hall a ha'

/-- C1 (amended): provided the progress sink's notify calls do not throw,
`processQuery` never propagates an exception: every invocation returns a
terminal `PipelineState`, and an unexpected exception from the schema
collaborator is caught, recorded as a truthy `state.error`, and routed
through `handle_error` (the retry counter is incremented to 1), exactly
as if `HandleError` were reached directly. -/
theorem C1_run_never_raises_when_sink_quiet (env : Env) (q : String) (sid : Option String)
    (hsink : env.sink = none) :
    ∃ s, AskQLWorkflow.processQuery env q sid = Except.ok s ∧
      (∀ m, env.getSchemaInfo = Except.error m →
        strTruthy s.error = true ∧ s.retryCount = some 1) := by
  have hq := notifySink_ok_of_none env hsink sid
  obtain ⟨t, hrun, hb⟩ := processQuery_master env q sid hq
  exact ⟨t, hrun, hb.2.2.2.2.2.1⟩

/-- C1 counterexample: with a session id present and a progress sink whose
notify call throws, the exception escapes `processQuery` (the
`emitSchemaLoading` call at the top of `processQuery` sits outside the
`try`), so the caller does not receive a terminal `PipelineState` —
refuting the claim that `run` never raises. -/
theorem C1_counterexample :
    AskQLWorkflow.processQuery crashSinkEnv "count rows in orders" (some "session-1") =
      Except.error "websocket transport failure" := rfl

/-- C1 witness: the amended theorem applied to a concrete environment with
a quiet sink and a failing schema collaborator. -/
theorem C1_witness :
    ({ demoEnv with getSchemaInfo := Except.error "db down" } : Env).sink = none ∧
    ∃ s, AskQLWorkflow.processQuery { demoEnv with getSchemaInfo := Except.error "db down" }
        "q" none = Except.ok s ∧
      (∀ m, ({ demoEnv with getSchemaInfo := Except.error "db down" } : Env).getSchemaInfo =
          Except.error m → strTruthy s.error = true ∧ s.retryCount = some 1) :=
  ⟨rfl, C1_run_never_raises_when_sink_quiet
    { demoEnv with getSchemaInfo := Except.error "db down" } "q" none rfl⟩

/-- C2 (amended): every terminal state returned by `processQuery` has an
error field that is absent or non-empty, never carries both a non-empty
`error` and a `finalResponse`, and whenever both `error` and
`finalResponse` are absent the state holds an `executionResult` with
`success = false` (a business failure that `handleError` copies as the
absent `state.error`). -/
theorem C2_terminal_exclusivity_amended (env : Env) (q : String) (sid : Option String)
    (s : AskQLState) (h : AskQLWorkflow.processQuery env q sid = Except.ok s) :
    (s.error = none ∨ strTruthy s.error = true) ∧
    (strTruthy s.error = true → s.finalResponse = none) ∧
    ((s.error = none ∧ s.finalResponse = none) →
      ∃ er, s.executionResult = some er ∧ er.success = false) := by
  have hb := processQuery_ok_bundle env q sid s h
  exact ⟨hb.1, hb.2.1, hb.2.2.1⟩

/-- C2 counterexample: a run in which the database driver rejects ends in
a terminal state with `finalResponse` and `error` both absent (the
failure lives only in `executionResult.error`), refuting the claimed
"exactly one of the two, never both absent". -/
theorem C2_counterexample :
    AskQLWorkflow.processQuery dbFailEnv "q" none = Except.ok dbFailTerminal ∧
    dbFailTerminal.error = none ∧ dbFailTerminal.finalResponse = none := ⟨rfl, rfl, rfl⟩

/-- C2 witness: the amended exclusivity facts instantiated on the fully
successful demo run. -/
theorem C2_witness :
    AskQLWorkflow.processQuery demoEnv "count rows in orders" none =
      Except.ok (demoTerminal "count rows in orders" none) ∧
    (((demoTerminal "count rows in orders" none).error = none ∨
        strTruthy (demoTerminal "count rows in orders" none).error = true) ∧
      (strTruthy (demoTerminal "count rows in orders" none).error = true →
        (demoTerminal "count rows in orders" none).finalResponse = none) ∧
      (((demoTerminal "count rows in orders" none).error = none ∧
          (demoTerminal "count rows in orders" none).finalResponse = none) →
        ∃ er, (demoTerminal "count rows in orders" none).executionResult = some er ∧
          er.success = false)) :=
  ⟨rfl, C2_terminal_exclusivity_amended demoEnv "count rows in orders" none
    (demoTerminal "count rows in orders" none) rfl⟩

/-- C3 (amended): `shouldExecuteOrExperiment` equals the spec-side route
on every state, where the low-confidence test is amended to "confidence
present, non-zero, and < 70" (JavaScript truthiness makes a confidence
of 0 skip the test); with valid = true and shouldExecute = true,
confidence 69 routes to experiment, 70 routes to execute, and both 0 and
an absent confidence route to execute. -/
theorem C3_route_after_validate_amended :
    (∀ s : AskQLState, AskQLWorkflow.shouldExecuteOrExperiment s = routeAfterValidateSpec s) ∧
    AskQLWorkflow.shouldExecuteOrExperiment (confState (some 69)) = "experiment" ∧
    AskQLWorkflow.shouldExecuteOrExperiment (confState (some 70)) = "execute" ∧
    AskQLWorkflow.shouldExecuteOrExperiment (confState (some 0)) = "execute" ∧
    AskQLWorkflow.shouldExecuteOrExperiment (confState none) = "execute" :=
  ⟨routeAfterValidate_refines, rfl, rfl, rfl, rfl⟩

/-- C3 counterexample: with valid = true and shouldExecute = true, a
present confidence of 0 routes to `execute`, not `experiment` as the
claim states for every present confidence strictly below 70. -/
theorem C3_counterexample :
    AskQLWorkflow.shouldExecuteOrExperiment (confState (some 0)) = "execute" ∧
    ("execute" : String) ≠ "experiment" := ⟨rfl, by decide⟩

/-- C4 (amended): an error raised by the progress sink is not caught and
discarded — with a truthy session id, a throwing sink makes
`processQuery` itself raise (the pre-`try` notify call propagates), so
sink failures do surface to the caller and do affect the outcome. -/
theorem C4_sink_error_not_discarded (env : Env) (q sess m : String)
    (hsess : sess ≠ "") (hm : env.sink = some m) :
    AskQLWorkflow.processQuery env q (some sess) = Except.error m :=
  processQuery_sinkThrow env q sess m hsess hm

/-- C4 counterexample: two runs that differ only in whether the sink's
notify calls throw produce different results — the quiet-sink run
returns the successful terminal state while the throwing-sink run
raises — refuting the claimed sink-failure independence. -/
theorem C4_counterexample :
    AskQLWorkflow.processQuery demoEnv "list users" (some "sess-7") =
      Except.ok (demoTerminal "list users" (some "sess-7")) ∧
    AskQLWorkflow.processQuery sinkThrowEnv "list users" (some "sess-7") =
      Except.error "socket emit failed" ∧
    (Except.ok (demoTerminal "list users" (some "sess-7")) : Except String AskQLState) ≠
      Except.error "socket emit failed" :=
  ⟨rfl, rfl, fun h => Except.noConfusion h⟩

/-- C4 witness: the amended theorem applied to the concrete throwing-sink
environment. -/
theorem C4_witness :
    ("sess-7" ≠ "" ∧ sinkThrowEnv.sink = some "socket emit failed") ∧
    AskQLWorkflow.processQuery sinkThrowEnv "show revenue" (some "sess-7") =
      Except.error "socket emit failed" :=
  ⟨⟨by decide, rfl⟩,
    C4_sink_error_not_discarded sinkThrowEnv "show revenue" "sess-7" "socket emit failed"
      (by decide) rfl⟩

/-- C5 (amended): Interpret re-checks only the presence of
`executionResult` and `sqlQuery`, not `executionResult.success` — run on
a state where the execution result is present, it calls the interpreter
and produces `finalResponse` even when `success = false`; the
`success = true` requirement is enforced solely by the routing function
`shouldInterpretOrError`. -/
theorem C5_interpret_checks_presence_only (env : Env) (s : AskQLState)
    (er : SQLExecutionOutput) (sq : String) (fr : AskQLStructuredOutput)
    (hq : notifySink env s.sessionId = Except.ok ())
    (her : s.executionResult = some er) (hsq : s.sqlQuery = some sq) (hne : sq ≠ "")
    (hr : env.interpretResults ⟨s.originalQuestion, sq, er.data.getD []⟩ = Except.ok fr) :
    AskQLWorkflow.interpretResults env s = Except.ok { s with finalResponse := some fr } ∧
    (s.error = none → er.success = false → AskQLWorkflow.shouldInterpretOrError s = "error") :=
  ⟨interpret_ok env s er sq fr hq her hsq hne hr,
    fun he hs => shouldInterp_err_unsuccessful s er he her hs⟩

/-- C5 counterexample: `interpretResults` run directly on a state whose
`executionResult` has `success = false` returns a `finalResponse` and no
error, refuting the claimed defensive re-check. -/
theorem C5_counterexample :
    AskQLWorkflow.interpretResults demoEnv sFailedExec =
      Except.ok { sFailedExec with finalResponse := some ⟨"There are 5 orders."⟩ } ∧
    failedExec.success = false ∧
    ({ sFailedExec with finalResponse := some ⟨"There are 5 orders."⟩ } : AskQLState).error =
      none :=
  ⟨rfl, rfl, rfl⟩

/-- C5 witness: the amended theorem applied to the concrete
failed-execution state under the demo interpreter. -/
theorem C5_witness :
    (sFailedExec.executionResult = some failedExec ∧ sFailedExec.sqlQuery = some "SELECT 1") ∧
    (AskQLWorkflow.interpretResults demoEnv sFailedExec =
        Except.ok { sFailedExec with finalResponse := some ⟨"There are 5 orders."⟩ } ∧
      (sFailedExec.error = none → failedExec.success = false →
        AskQLWorkflow.shouldInterpretOrError sFailedExec = "error")) :=
  ⟨⟨rfl, rfl⟩, C5_interpret_checks_presence_only demoEnv sFailedExec failedExec "SELECT 1"
    ⟨"There are 5 orders."⟩ rfl rfl rfl (by decide) rfl⟩

/-- C6: Experiment overwrites `sqlQuery`, `queryExplanation` and
`sqlConfidence` exactly when the best alternative's confidence strictly
exceeds the current confidence, where the best alternative (computed by
the `reduce`) is a member of the returned list of maximal confidence;
otherwise only `alternativeQueries` is recorded and the original triple
is unchanged.  For alternatives with confidences 40, 85 and 60 and
current confidence 50, the post-Experiment state carries the
confidence-85 alternative's query and confidence 85. -/
theorem C6_experiment_best_alternative :
    (∀ (env : Env) (s : AskQLState) (sq : String) (sch : List String) (c : Nat)
        (a0 : AlternativeQuery) (rest : List AlternativeQuery),
      notifySink env s.sessionId = Except.ok () →
      s.sqlQuery = some sq → sq ≠ "" → s.schema = some sch → s.sqlConfidence = some c →
      env.experimentWithQuery ⟨sq, s.originalQuestion, sch, s.queryExplanation.getD ""⟩ =
        Except.ok ⟨some (a0 :: rest)⟩ →
      ((AskQLWorkflow.reduceBest a0 rest ∈ a0 :: rest) ∧
        ∀ a ∈ a0 :: rest, a.confidence ≤ (AskQLWorkflow.reduceBest a0 rest).confidence) ∧
      ((AskQLWorkflow.reduceBest a0 rest).confidence > c →
        AskQLWorkflow.experimentWithAlternatives env s =
          Except.ok { s with
            alternativeQueries := some (a0 :: rest),
            sqlQuery := some (AskQLWorkflow.reduceBest a0 rest).query,
            queryExplanation := some (AskQLWorkflow.reduceBest a0 rest).explanation,
            sqlConfidence := some (AskQLWorkflow.reduceBest a0 rest).confidence }) ∧
      (¬ (AskQLWorkflow.reduceBest a0 rest).confidence > c →
        AskQLWorkflow.experimentWithAlternatives env s =
          Except.ok { s with alternativeQueries := some (a0 :: rest) })) ∧
    AskQLWorkflow.experimentWithAlternatives altsEnv experimentState =
      Except.ok { experimentState with
        alternativeQueries := some demoAlternatives,
        sqlQuery := some "q85",
        queryExplanation := some "e85",
        sqlConfidence := some 85 } := by
  constructor
  · intro env s sq sch c a0 rest hq hsq hne hsch hc hr
    obtain ⟨hmem, hge, hall⟩ := reduceBest_spec rest a0
    refine ⟨⟨?_, ?_⟩, ?_, ?_⟩
    · rcases hmem with h | h
      · rw [h]
        exact List.mem_cons_self a0 rest
      · exact List.mem_cons_of_mem a0 h
    · intro a ha
      rcases List.mem_cons.mp ha with rfl | ha'
      · exact hge
      · exact hall a ha'
    · intro hgt
      have := experiment_better env s sq sch a0 rest hq hsq hne hsch hr (by rw [hc]; exact hgt)
      exact this
    · intro hle
      exact experiment_notBetter env s sq sch a0 rest hq hsq hne hsch hr (by rw [hc]; exact hle)
  · rfl

/-- C6 witness: the overwrite branch of the theorem applied to the
concrete 40/85/60 environment with current confidence 50. -/
theorem C6_witness :
    (experimentState.sqlConfidence = some 50 ∧
      altsEnv.experimentWithQuery ⟨"SELECT o", "q", ["t"], "orig"⟩ = Except.ok ⟨some demoAlternatives⟩) ∧
    AskQLWorkflow.experimentWithAlternatives altsEnv experimentState =
      Except.ok { experimentState with
        alternativeQueries := some demoAlternatives,
        sqlQuery := some "q85",
        queryExplanation := some "e85",
        sqlConfidence := some 85 } :=
  ⟨⟨rfl, rfl⟩,
    ((C6_experiment_best_alternative.1 altsEnv experimentState "SELECT o" ["t"] 50 ⟨"q40", "e40", 40⟩
      [⟨"q85", "e85", 85⟩, ⟨"q60", "e60", 60⟩] rfl rfl (by decide) rfl rfl rfl).2.1
        (by decide))⟩

/-- C7: Experiment is never fatal — a missing precondition (absent or
empty `sqlQuery`, or absent `schema`) returns the state unchanged rather
than an error, a failing alternative-generator collaborator also returns
the state unchanged, and whenever the router selects `experiment` the
pipeline proceeds unconditionally through Experiment into Execute. -/
theorem C7_experiment_never_fatal :
    (∀ (env : Env) (s : AskQLState),
      notifySink env s.sessionId = Except.ok () →
      (s.sqlQuery = none ∨ s.sqlQuery = some "" ∨ s.schema = none) →
      AskQLWorkflow.experimentWithAlternatives env s = Except.ok s) ∧
    (∀ (env : Env) (s : AskQLState) (sq : String) (sch : List String) (m : String),
      notifySink env s.sessionId = Except.ok () →
      s.sqlQuery = some sq → sq ≠ "" → s.schema = some sch →
      env.experimentWithQuery ⟨sq, s.originalQuestion, sch, s.queryExplanation.getD ""⟩ =
        Except.error m →
      AskQLWorkflow.experimentWithAlternatives env s = Except.ok s) ∧
    (∀ (env : Env) (s : AskQLState),
      AskQLWorkflow.shouldExecuteOrExperiment s = "experiment" →
      AskQLWorkflow.afterValidateRoute env s =
        AskQLWorkflow.experimentWithAlternatives env s >>= AskQLWorkflow.execThenFinish env) := by
  refine ⟨experiment_skip, experiment_genfail, ?_⟩
  intro env s h
  simp [AskQLWorkflow.afterValidateRoute, h]

/-- C7 witness: the generator-failure branch applied to a concrete
environment whose generator rejects. -/
theorem C7_witness :
    (experimentState.sqlQuery = some "SELECT o" ∧ experimentState.schema = some ["t"] ∧
      genFailEnv.experimentWithQuery ⟨"SELECT o", "q", ["t"], "orig"⟩ =
        Except.error "llm timeout") ∧
    AskQLWorkflow.experimentWithAlternatives genFailEnv experimentState = Except.ok experimentState :=
  ⟨⟨rfl, rfl, rfl⟩,
    C7_experiment_never_fatal.2.1 genFailEnv experimentState "SELECT o" ["t"] "llm timeout" rfl rfl
      (by decide) rfl rfl⟩

/-- C8 (amended): the executor refuses execution whenever
`isValidated = false`, `riskLevel = HIGH`, or the query is not a
read-only `SELECT` statement, returning a failure output with the
specific refusal reason without consulting the database (the output is
the same constant for every database oracle `db`); the refusal reason is
reported in `executionResult.error` inside the terminal `PipelineState`,
while the terminal `state.error` itself remains unset. -/
theorem C8_executor_refusal_policy :
    (∀ (db : String → Except String (List Row)) (inp : SQLExecutionInput),
      inp.isValidated = false →
      SQLExecutionAgent.executeSQL db inp =
        ⟨false, none, some "Query must be validated before execution", 0, 0, ⟨[]⟩⟩) ∧
    (∀ (db : String → Except String (List Row)) (inp : SQLExecutionInput),
      inp.isValidated = true → inp.riskLevel = RiskLevel.HIGH →
      SQLExecutionAgent.executeSQL db inp =
        ⟨false, none, some "High-risk queries are not allowed to execute", 0, 0, ⟨[]⟩⟩) ∧
    (∀ (db : String → Except String (List Row)) (inp : SQLExecutionInput),
      inp.isValidated = true → inp.riskLevel ≠ RiskLevel.HIGH →
      jsStartsWith (jsToUpper (jsTrim inp.sqlQuery)) "SELECT" = false →
      SQLExecutionAgent.executeSQL db inp =
        ⟨false, none, some "Only SELECT queries are allowed", 0, 0, ⟨[]⟩⟩) ∧
    (AskQLWorkflow.processQuery highRiskEnv "q8" none = Except.ok highRiskTerminal ∧
      highRiskTerminal.error = none ∧
      highRiskTerminal.executionResult = some highRiskExec ∧
      highRiskExec.error = some "High-risk queries are not allowed to execute") := by
  refine ⟨?_, ?_, ?_, rfl, rfl, rfl, rfl⟩
  · intro db inp h
    simp [SQLExecutionAgent.executeSQL, h]
  · intro db inp h1 h2
    simp [SQLExecutionAgent.executeSQL, h1, h2]
  · intro db inp h1 h2 h3
    simp [SQLExecutionAgent.executeSQL, h1, h2, h3]

/-- C8 counterexample: a high-risk policy refusal ends in a terminal
state whose `error` field is absent — the refusal reason appears only in
`executionResult.error` — refuting the claim that a policy refusal is
reported as `error` in the terminal `PipelineState`. -/
theorem C8_counterexample :
    AskQLWorkflow.processQuery highRiskEnv "q" none =
      Except.ok { highRiskTerminal with originalQuestion := "q" } ∧
    ({ highRiskTerminal with originalQuestion := "q" } : AskQLState).error = none ∧
    ({ highRiskTerminal with originalQuestion := "q" } : AskQLState).executionResult =
      some highRiskExec ∧
    highRiskExec.error = some "High-risk queries are not allowed to execute" :=
  ⟨rfl, rfl, rfl, rfl⟩

/-- C8 witness: the high-risk refusal equation applied at a concrete
input and database oracle. -/
theorem C8_witness :
    ((⟨"SELECT 1", true, RiskLevel.HIGH⟩ : SQLExecutionInput).isValidated = true ∧
      (⟨"SELECT 1", true, RiskLevel.HIGH⟩ : SQLExecutionInput).riskLevel = RiskLevel.HIGH) ∧
    SQLExecutionAgent.executeSQL demoEnv.executeReadOnlyQuery ⟨"SELECT 1", true, RiskLevel.HIGH⟩ =
      ⟨false, none, some "High-risk queries are not allowed to execute", 0, 0, ⟨[]⟩⟩ :=
  ⟨⟨rfl, rfl⟩,
    C8_executor_refusal_policy.2.1 demoEnv.executeReadOnlyQuery
      ⟨"SELECT 1", true, RiskLevel.HIGH⟩ rfl rfl⟩

/-- C9: in every run, `handle_error` executes at most once — its only
outgoing edge leads to END — so the terminal state's retry counter is 0
or 1 and the `retryCount > 2` branch that rewrites the error to a
maximum-retries-exceeded message is never taken: no terminal error ever
carries that message. -/
theorem C9_retry_bounded (env : Env) (q : String) (sid : Option String) (s : AskQLState)
    (h : AskQLWorkflow.processQuery env q sid = Except.ok s) :
    (s.retryCount = some 0 ∨ s.retryCount = some 1) ∧
    ∀ m, s.error ≠ some ("Maximum retry attempts exceeded. Original error: " ++ m) := by
  have hb := processQuery_ok_bundle env q sid s h
  exact ⟨hb.2.2.2.1, hb.2.2.2.2.1⟩

/-- C9 witness: the bound instantiated on a concrete failing run that
does pass through `handle_error` once. -/
theorem C9_witness :
    AskQLWorkflow.processQuery dbFailEnv "q" none = Except.ok dbFailTerminal ∧
    ((dbFailTerminal.retryCount = some 0 ∨ dbFailTerminal.retryCount = some 1) ∧
      ∀ m, dbFailTerminal.error ≠
        some ("Maximum retry attempts exceeded. Original error: " ++ m)) :=
  ⟨rfl, C9_retry_bounded dbFailEnv "q" none dbFailTerminal rfl⟩

/-- C10: whenever the validator only ever returns verdicts with
`isValid = false` or `riskLevel = HIGH`, the run never reaches Interpret
and `finalResponse` is never set — even when Experiment replaces
`sqlQuery`, Execute passes the original validation verdict to the
executor, which refuses, so the replacement query is never successfully
executed. -/
theorem C10_rejected_validation_never_interprets (env : Env) (q : String) (sid : Option String)
    (s : AskQLState)
    (hval : ∀ inp vr, env.validateSQL inp = Except.ok vr →
      vr.isValid = false ∨ vr.riskLevel = RiskLevel.HIGH)
    (h : AskQLWorkflow.processQuery env q sid = Except.ok s) :
    s.finalResponse = none := by
  have hb := processQuery_ok_bundle env q sid s h
  exact hb.2.2.2.2.2.2 hval

/-- C10 witness: a concrete run with a rejecting validator in which
Experiment runs, Execute refuses the unvalidated query, and the terminal
state has no `finalResponse`. -/
theorem C10_witness :
    AskQLWorkflow.processQuery invalidEnv "q10" none = Except.ok invalidTerminal ∧
    invalidTerminal.finalResponse = none :=
  ⟨rfl, C10_rejected_validation_never_interprets invalidEnv "q10" none invalidTerminal
    (by
      intro inp vr h
      injection h with h'
      rw [← h']
      exact Or.inl rfl) rfl⟩
